import Mathlib

/-!
Verification of the operator control panel (`src/frontend/src/App.js`).

The panel's client-side logic is embedded shallowly: React state updates
become explicit state passing, `fetch`/`json()` outcomes become explicit
outcome parameters, and each handler returns the new state together with a
trace of observable events (network calls issued, log appends, in-flight
flag writes, snapshot replacements, console diagnostics).
-/

/-- A JavaScript number: either NaN or an exact rational value (the panel
only manipulates decimal literals, so rationals model them exactly). -/
inductive JSNum where
  | nan
  | val (q : ℚ)
deriving DecidableEq

/-- A JavaScript value as stored in the panel's configuration object:
either a string or a number. -/
inductive JSValue where
  | str (s : String)
  | num (n : JSNum)
deriving DecidableEq

/-- JavaScript truthiness of a number: `NaN` and `0` are falsy. -/
def jsNumTruthy : JSNum → Bool
  | .nan => false
  | .val q => decide (q ≠ 0)

/-- JavaScript truthiness of a value: the empty string is falsy,
numbers follow `jsNumTruthy`. -/
def jsTruthy : JSValue → Bool
  | .str s => !s.isEmpty
  | .num n => jsNumTruthy n

/-- Rendering of a number by a JS template literal (only exercised on
string-valued fields in the claims; the numeric case is a plain decimal
rendering). -/
def jsNumToString : JSNum → String
  | .nan => "NaN"
  | .val q => toString q

/-- Rendering of a value inside a JS template literal. -/
def jsToString : JSValue → String
  | .str s => s
  | .num n => jsNumToString n

/-- Numeric value of a list of decimal digit characters. -/
def digitsVal (cs : List Char) : Nat :=
  cs.foldl (fun a c => a * 10 + (c.toNat - 48)) 0

/-- Exponent part of a decimal literal: optional sign then digits; an
invalid exponent part is ignored (contributes 0), as in JS `parseFloat`. -/
def parseExp (cs : List Char) : Int :=
  let p := match cs with
    | '-' :: r => ((-1 : Int), r)
    | '+' :: r => ((1 : Int), r)
    | _ => ((1 : Int), cs)
  let ds := p.2.takeWhile Char.isDigit
  if ds.isEmpty then 0 else p.1 * (digitsVal ds : Int)

/-- Models the JavaScript `parseFloat` builtin on decimal string literals:
skips leading whitespace, reads an optional sign, integer digits, an
optional fraction and an optional exponent, and returns NaN when no digits
are present. -/
def parseFloat (s : String) : JSNum :=
  let cs := s.toList.dropWhile (fun c => c = ' ' || c = '\t' || c = '\n' || c = '\r')
  let p := match cs with
    | '-' :: r => ((-1 : ℚ), r)
    | '+' :: r => ((1 : ℚ), r)
    | _ => ((1 : ℚ), cs)
  let intDigits := p.2.takeWhile Char.isDigit
  let cs1 := p.2.drop intDigits.length
  let q := match cs1 with
    | '.' :: r => (r.takeWhile Char.isDigit, r.drop (r.takeWhile Char.isDigit).length)
    | _ => (([] : List Char), cs1)
  if intDigits.isEmpty && q.1.isEmpty then .nan
  else
    let mantissa : ℚ := (digitsVal intDigits : ℚ) + (digitsVal q.1 : ℚ) / ((10 : ℚ) ^ q.1.length)
    let expo : Int := match q.2 with
      | 'e' :: r => parseExp r
      | 'E' :: r => parseExp r
      | _ => 0
    .val (p.1 * mantissa * (10 : ℚ) ^ expo)

/-- One entry of the active-order sub-records of a status snapshot
(`current_buy_order` / `current_sell_order` in App.js). -/
structure OrderInfo where
  price : JSNum
  orderId : String
deriving DecidableEq

/-- The status snapshot held in the `botStatus` React state
(App.js lines 14-17 give the initial value; the optional fields are the
ones the status section reads, lines 219-284). `none` models an absent
(`undefined`) field of the parsed JSON. -/
structure BotStatus where
  running : Bool
  message : String
  symbol : Option String := none
  best_bid : Option JSNum := none
  best_ask : Option JSNum := none
  spread : Option JSNum := none
  initial_price : Option JSNum := none
  current_buy_order : Option OrderInfo := none
  current_sell_order : Option OrderInfo := none
deriving DecidableEq

/-- Initial `botStatus` state (App.js lines 14-17). -/
def initialBotStatus : BotStatus :=
  { running := false, message := "" }

/-- The `config` React state object (App.js lines 5-12). Fields hold
arbitrary JS values because `handleInputChange` stores whatever the
coercion produced. -/
structure Config where
  api_key : JSValue
  secret_key : JSValue
  symbol : JSValue
  buy_quantity : JSValue
  sell_quantity : JSValue
  max_price_deviation : JSValue
deriving DecidableEq

/-- Initial `config` state (App.js lines 5-12). -/
def initialConfig : Config :=
  { api_key := .str ""
    secret_key := .str ""
    symbol := .str "BTCUSDT"
    buy_quantity := .num (.val (1 / 1000))
    sell_quantity := .num (.val (1 / 1000))
    max_price_deviation := .num (.val (5 / 100)) }

/-- One entry of the event log: `{ timestamp, message, type }`
(App.js line 42). -/
structure LogEntry where
  timestamp : String
  message : String
  type : String
deriving DecidableEq

/-- `addLog` (App.js lines 40-43): `setLogs(prev => [...prev.slice(-99),
{ timestamp, message, type }])`. `slice(-99)` keeps the last 99 entries
(all of them when fewer), so the log never exceeds 100 entries. The
wall-clock timestamp is passed in as `ts`. -/
def addLog (ts message ty : String) (logs : List LogEntry) : List LogEntry :=
  logs.drop (logs.length - 99) ++ [⟨ts, message, ty⟩]

/-- Observable events emitted by a handler, in execution order. -/
inductive Event where
  | netCall (endpoint : String)
  | logAppend (message ty : String)
  | setLoading (b : Bool)
  | snapshotApplied
  | consoleError (msg : String)
deriving DecidableEq

/-- Whether an event is an append to the operator-visible event log. -/
def Event.isLog : Event → Bool
  | .logAppend _ _ => true
  | _ => false

/-- Whether an event is a network call. -/
def Event.isNetCall : Event → Bool
  | .netCall _ => true
  | _ => false

/-- Outcome of `response.json()`: a parsed body or a rejection. -/
inductive ParseOut (α : Type) where
  | parsed (a : α)
  | parseError (msg : String)
deriving DecidableEq

/-- Outcome of a `fetch`: a transport-level rejection, or a response with
an HTTP `ok` flag (2xx) and a body. -/
inductive NetOutcome (α : Type) where
  | networkError (msg : String)
  | response (ok : Bool) (body : ParseOut α)
deriving DecidableEq

/-- Body shape of start/stop responses as read by App.js: only
`result.detail` is ever accessed; `none` models an absent field, which a
template literal renders as `"undefined"`. -/
structure DetailBody where
  detail : Option String
deriving DecidableEq

/-- `fetchBotStatus` (App.js lines 30-38): `GET /api/bot-status`, parse the
body, and replace the whole snapshot with it; any rejection (transport
error or unparseable body) is caught and written to the console only. Note
the code never consults `response.ok`. -/
def fetchBotStatus (net : NetOutcome BotStatus) (cur : BotStatus) :
    BotStatus × List Event :=
  match net with
  | .networkError m =>
      (cur, [.netCall "/api/bot-status",
             .consoleError ("Error fetching bot status: " ++ m)])
  | .response _ (.parseError m) =>
      (cur, [.netCall "/api/bot-status",
             .consoleError ("Error fetching bot status: " ++ m)])
  | .response _ (.parsed s) =>
      (s, [.netCall "/api/bot-status", .snapshotApplied])

/-- The whole panel state: `config`, `botStatus`, `logs`, `isLoading`
(App.js lines 5-20). -/
structure PanelState where
  config : Config
  botStatus : BotStatus
  logs : List LogEntry
  isLoading : Bool
deriving DecidableEq

/-- `startBot` (App.js lines 53-82). `net` is the outcome of the
`POST /api/start-bot` fetch and body parse; `poll` is the outcome of the
follow-up `fetchBotStatus` on the success path; `ts` is the wall-clock
stamp used by `addLog`. Note `response.json()` runs before the
`response.ok` test, so an unparseable body lands in the catch clause even
for a 2xx response. -/
def startBot (ts : String) (st : PanelState) (net : NetOutcome DetailBody)
    (poll : NetOutcome BotStatus) : PanelState × List Event :=
  if !(jsTruthy st.config.api_key) || !(jsTruthy st.config.secret_key) then
    ({ st with logs := addLog ts "Пожалуйста, введите API ключи" "error" st.logs },
     [.logAppend "Пожалуйста, введите API ключи" "error"])
  else
    let st1 := { st with isLoading := true }
    let evs := [Event.setLoading true, Event.netCall "/api/start-bot"]
    match net with
    | .networkError m =>
        let msg := "Ошибка соединения: " ++ m
        ({ st1 with logs := addLog ts msg "error" st1.logs, isLoading := false },
         evs ++ [.logAppend msg "error", .setLoading false])
    | .response _ (.parseError m) =>
        let msg := "Ошибка соединения: " ++ m
        ({ st1 with logs := addLog ts msg "error" st1.logs, isLoading := false },
         evs ++ [.logAppend msg "error", .setLoading false])
    | .response ok (.parsed body) =>
        if ok then
          let msg := "Бот запущен для пары " ++ jsToString st1.config.symbol
          let st2 := { st1 with logs := addLog ts msg "success" st1.logs }
          let pr := fetchBotStatus poll st2.botStatus
          ({ st2 with botStatus := pr.1, isLoading := false },
           evs ++ [.logAppend msg "success"] ++ pr.2 ++ [.setLoading false])
        else
          let msg := "Ошибка запуска: " ++ body.detail.getD "undefined"
          ({ st1 with logs := addLog ts msg "error" st1.logs, isLoading := false },
           evs ++ [.logAppend msg "error", .setLoading false])

/-- `stopBot` (App.js lines 84-104): like `startBot` but with no
credential guard and the stop-specific messages. -/
def stopBot (ts : String) (st : PanelState) (net : NetOutcome DetailBody)
    (poll : NetOutcome BotStatus) : PanelState × List Event :=
  let st1 := { st with isLoading := true }
  let evs := [Event.setLoading true, Event.netCall "/api/stop-bot"]
  match net with
  | .networkError m =>
      let msg := "Ошибка соединения: " ++ m
      ({ st1 with logs := addLog ts msg "error" st1.logs, isLoading := false },
       evs ++ [.logAppend msg "error", .setLoading false])
  | .response _ (.parseError m) =>
      let msg := "Ошибка соединения: " ++ m
      ({ st1 with logs := addLog ts msg "error" st1.logs, isLoading := false },
       evs ++ [.logAppend msg "error", .setLoading false])
  | .response ok (.parsed body) =>
      if ok then
        let msg := "Бот остановлен"
        let st2 := { st1 with logs := addLog ts msg "success" st1.logs }
        let pr := fetchBotStatus poll st2.botStatus
        ({ st2 with botStatus := pr.1, isLoading := false },
         evs ++ [.logAppend msg "success"] ++ pr.2 ++ [.setLoading false])
      else
        let msg := "Ошибка остановки: " ++ body.detail.getD "undefined"
        ({ st1 with logs := addLog ts msg "error" st1.logs, isLoading := false },
         evs ++ [.logAppend msg "error", .setLoading false])

/-- `disabled={isLoading || botStatus.running}` on the start button
(App.js line 199). -/
def startDisabled (st : PanelState) : Bool :=
  st.isLoading || st.botStatus.running

/-- Clicking the start button: a disabled button fires no handler, an
enabled one runs `startBot` (App.js lines 197-203). -/
def clickStart (ts : String) (st : PanelState) (net : NetOutcome DetailBody)
    (poll : NetOutcome BotStatus) : PanelState × List Event :=
  if startDisabled st then (st, []) else startBot ts st net poll

/-- The six named form inputs bound to `config` (App.js lines 121-193). -/
inductive ConfigField where
  | api_key
  | secret_key
  | symbol
  | buy_quantity
  | sell_quantity
  | max_price_deviation
deriving DecidableEq

/-- The `type` attribute of each input element as written in the JSX
(App.js lines 121-193): the three quantity fields are `number` inputs, the
credentials are `password` inputs, the symbol a `text` input. -/
def inputType : ConfigField → String
  | .api_key => "password"
  | .secret_key => "password"
  | .symbol => "text"
  | .buy_quantity => "number"
  | .sell_quantity => "number"
  | .max_price_deviation => "number"

/-- Functional update of one configuration field. -/
def setField (cfg : Config) (f : ConfigField) (v : JSValue) : Config :=
  match f with
  | .api_key => { cfg with api_key := v }
  | .secret_key => { cfg with secret_key := v }
  | .symbol => { cfg with symbol := v }
  | .buy_quantity => { cfg with buy_quantity := v }
  | .sell_quantity => { cfg with sell_quantity := v }
  | .max_price_deviation => { cfg with max_price_deviation := v }

/-- `handleInputChange` (App.js lines 45-51): store
`type === 'number' ? parseFloat(value) : value` under the input's name,
where the input's `type` attribute is fixed by the JSX per field. -/
def handleInputChange (f : ConfigField) (value : String) (cfg : Config) : Config :=
  setField cfg f (if inputType f = "number" then .num (parseFloat value) else .str value)

/-- Truthiness of an optional field of the snapshot: an absent field is
`undefined`, which is falsy. -/
def jsTruthyOpt : Option JSNum → Bool
  | none => false
  | some n => jsNumTruthy n

/-- The `{botStatus.best_bid && (...)}` display condition (App.js line
234): the best-bid row is rendered exactly when `best_bid` is truthy. -/
def rendersBestBid (s : BotStatus) : Bool :=
  jsTruthyOpt s.best_bid

/-- Constructor test: is this JS value a number? -/
def JSValue.isNum : JSValue → Bool
  | .num _ => true
  | .str _ => false

/-- Constructor test: is this JS value a string? -/
def JSValue.isStr : JSValue → Bool
  | .str _ => true
  | .num _ => false

/-- The configuration-typing invariant: the three quantity fields hold
numbers, the credential and symbol fields hold strings. -/
def numericInvariant (c : Config) : Bool :=
  c.buy_quantity.isNum && c.sell_quantity.isNum && c.max_price_deviation.isNum &&
    c.api_key.isStr && c.secret_key.isStr && c.symbol.isStr

/-- The severity of a log-append event, `none` for other events. -/
def Event.logType : Event → Option String
  | .logAppend _ ty => some ty
  | _ => none

/-- The panel state at mount (App.js lines 5-20). -/
def initialPanel : PanelState :=
  { config := initialConfig
    botStatus := initialBotStatus
    logs := []
    isLoading := false }

/-- The panel state of scenario A of the specification: credentials
`"k1"`/`"s1"`, symbol `"ETHUSDT"`, empty log, no action in flight. -/
def scenarioAState : PanelState :=
  { config := { initialConfig with
                  api_key := .str "k1"
                  secret_key := .str "s1"
                  symbol := .str "ETHUSDT" }
    botStatus := initialBotStatus
    logs := []
    isLoading := false }

/-- The `i`-th log entry appended in the ring-bound experiment. -/
def mkEntry (i : Nat) : LogEntry :=
  ⟨"t", toString i, "info"⟩

/-- C1 (amended): a status poll whose fetch rejects or whose body is not
parseable leaves the snapshot unchanged and reports only to the console;
any response with a parseable body — 2xx or not — replaces the snapshot;
no poll outcome ever appends to the EventLog. -/
theorem C1_poll_outcomes (cur : BotStatus) :
    (∀ m, (fetchBotStatus (.networkError m) cur).1 = cur) ∧
    (∀ ok m, (fetchBotStatus (.response ok (.parseError m)) cur).1 = cur) ∧
    (∀ ok s, (fetchBotStatus (.response ok (.parsed s)) cur).1 = s) ∧
    ∀ net, ((fetchBotStatus net cur).2.all fun e => !e.isLog) = true := by
  refine ⟨fun m => rfl, fun ok m => rfl, fun ok s => rfl, fun net => ?_⟩
  cases net with
  | networkError m => rfl
  | response ok body => cases body <;> rfl

/-- C1 counterexample: a non-2xx response with a parseable body does
replace the snapshot — the code never consults `response.ok`. -/
theorem C1_counterexample :
    (fetchBotStatus (.response false (.parsed { running := true, message := "stale" }))
        initialBotStatus).1 ≠ initialBotStatus := by
  decide

set_option maxRecDepth 8000 in
/-- C2: appending 150 sequential entries to an empty log leaves exactly
100 entries, namely the last 100 appended in their original order (FIFO
eviction of the oldest). -/
theorem C2_ring_bound :
    (List.range 150).foldl (fun l i => addLog "t" (toString i) "info" l) [] =
      ((List.range 150).drop 50).map mkEntry ∧
    ((List.range 150).foldl (fun l i => addLog "t" (toString i) "info" l) []).length = 100 := by
  constructor <;> rfl

/-- C3: with an empty `api_key` or `secret_key`, `startBot` emits exactly
one error-severity log append and nothing else: no network call, the log
grows by that single entry, the snapshot is untouched and `isLoading`
stays false. -/
theorem C3_validation_gate (ts : String) (st : PanelState) (net : NetOutcome DetailBody)
    (poll : NetOutcome BotStatus)
    (hkey : st.config.api_key = .str "" ∨ st.config.secret_key = .str "")
    (hload : st.isLoading = false) :
    (startBot ts st net poll).2 = [.logAppend "Пожалуйста, введите API ключи" "error"] ∧
    ((startBot ts st net poll).2.all fun e => !e.isNetCall) = true ∧
    (startBot ts st net poll).1.isLoading = false ∧
    (startBot ts st net poll).1.logs =
      addLog ts "Пожалуйста, введите API ключи" "error" st.logs ∧
    (startBot ts st net poll).1.botStatus = st.botStatus := by
  have h0 : jsTruthy (.str "") = false := by decide
  have hguard : (!(jsTruthy st.config.api_key) || !(jsTruthy st.config.secret_key)) = true := by
    rcases hkey with h | h <;> rw [h, h0] <;> simp
  simp [startBot, hguard, hload, Event.isNetCall]

/-- C3 witness: the initial panel state has empty credentials, and
invoking start there produces exactly the single validation error. -/
theorem C3_witness :
    (initialPanel.config.api_key = .str "" ∨ initialPanel.config.secret_key = .str "") ∧
    initialPanel.isLoading = false ∧
    ((startBot "t" initialPanel (.networkError "x") (.networkError "y")).2 =
        [.logAppend "Пожалуйста, введите API ключи" "error"] ∧
      ((startBot "t" initialPanel (.networkError "x") (.networkError "y")).2.all
          fun e => !e.isNetCall) = true ∧
      (startBot "t" initialPanel (.networkError "x") (.networkError "y")).1.isLoading = false ∧
      (startBot "t" initialPanel (.networkError "x") (.networkError "y")).1.logs =
        addLog "t" "Пожалуйста, введите API ключи" "error" initialPanel.logs ∧
      (startBot "t" initialPanel (.networkError "x") (.networkError "y")).1.botStatus =
        initialPanel.botStatus) :=
  ⟨Or.inl rfl, rfl,
    C3_validation_gate "t" initialPanel (.networkError "x") (.networkError "y") (Or.inl rfl) rfl⟩

/-- C4 (amended): while `ActionInFlight` is true the start control is
disabled, so a click issues no network call and changes nothing; the guard
lives only at the UI boundary — the controller function itself performs no
in-flight check (see the counterexample). -/
theorem C4_ui_guard (ts : String) (st : PanelState) (net : NetOutcome DetailBody)
    (poll : NetOutcome BotStatus) (h : st.isLoading = true) :
    clickStart ts st net poll = (st, []) := by
  simp [clickStart, startDisabled, h]

/-- C4 counterexample: `startBot` invoked directly while `isLoading` is
true, with valid credentials, still issues the network call. -/
theorem C4_counterexample :
    ((startBot "t" { scenarioAState with isLoading := true }
        (.response true (.parsed ⟨none⟩)) (.networkError "down")).2.any
      fun e => e.isNetCall) = true := by
  decide

/-- C4 witness: a concrete busy state on which the disabled start button
does nothing. -/
theorem C4_witness :
    ({ scenarioAState with isLoading := true } : PanelState).isLoading = true ∧
    clickStart "t" { scenarioAState with isLoading := true }
        (.response true (.parsed ⟨none⟩)) (.networkError "down") =
      ({ scenarioAState with isLoading := true }, []) :=
  ⟨rfl, C4_ui_guard "t" { scenarioAState with isLoading := true }
    (.response true (.parsed ⟨none⟩)) (.networkError "down") rfl⟩

/-- C5: on every exit path that reaches the network call — transport
failure, unparseable body, remote rejection and success alike — both
`startBot` (under valid credentials) and `stopBot` leave `isLoading`
false. -/
theorem C5_inflight_release (ts : String) (st : PanelState) (net : NetOutcome DetailBody)
    (poll : NetOutcome BotStatus)
    (h1 : jsTruthy st.config.api_key = true) (h2 : jsTruthy st.config.secret_key = true) :
    (startBot ts st net poll).1.isLoading = false ∧
    (stopBot ts st net poll).1.isLoading = false := by
  constructor
  · cases net with
    | networkError m => simp [startBot, h1, h2]
    | response ok body =>
      cases body with
      | parsed b => cases ok <;> simp [startBot, h1, h2]
      | parseError m => simp [startBot, h1, h2]
  · cases net with
    | networkError m => simp [stopBot]
    | response ok body =>
      cases body with
      | parsed b => cases ok <;> simp [stopBot]
      | parseError m => simp [stopBot]

/-- C5 witness: a concrete run of both handlers on a transport failure
releases the flag. -/
theorem C5_witness :
    jsTruthy scenarioAState.config.api_key = true ∧
    jsTruthy scenarioAState.config.secret_key = true ∧
    ((startBot "t" scenarioAState (.networkError "x") (.networkError "y")).1.isLoading = false ∧
     (stopBot "t" scenarioAState (.networkError "x") (.networkError "y")).1.isLoading = false) :=
  ⟨by decide, by decide,
    C5_inflight_release "t" scenarioAState (.networkError "x") (.networkError "y")
      (by decide) (by decide)⟩

/-- C6 (amended): on a success response, `startBot` appends the entry
`"Бот запущен для пары <symbol>"` (the Russian source text of the spec's
"bot started for pair <symbol>") at success severity and triggers an
immediate status poll; on a remote rejection it appends
`"Ошибка запуска: <detail>"` at error severity. -/
theorem C6_start_outcome_logs (ts : String) (st : PanelState) (poll : NetOutcome BotStatus)
    (sym d : String) (body : DetailBody)
    (h1 : jsTruthy st.config.api_key = true) (h2 : jsTruthy st.config.secret_key = true)
    (hsym : st.config.symbol = .str sym) :
    ((startBot ts st (.response true (.parsed body)) poll).1.logs =
        addLog ts ("Бот запущен для пары " ++ sym) "success" st.logs ∧
      Event.netCall "/api/bot-status" ∈ (startBot ts st (.response true (.parsed body)) poll).2) ∧
    (startBot ts st (.response false (.parsed ⟨some d⟩)) poll).1.logs =
      addLog ts ("Ошибка запуска: " ++ d) "error" st.logs := by
  refine ⟨⟨?_, ?_⟩, ?_⟩
  · simp [startBot, h1, h2, hsym, jsToString]
  · cases poll with
    | networkError m => simp [startBot, h1, h2, fetchBotStatus]
    | response ok pbody => cases pbody <;> simp [startBot, h1, h2, fetchBotStatus]
  · simp [startBot, h1, h2]

/-- C6 counterexample: in scenario A (symbol `"ETHUSDT"`, 200 response)
the log gains one entry, and no entry carries the message the claim
states, `"bot started for pair ETHUSDT"` — the source logs the Russian
text instead. -/
theorem C6_counterexample :
    (startBot "t" scenarioAState (.response true (.parsed ⟨none⟩))
        (.networkError "x")).1.logs.length = 1 ∧
    ((startBot "t" scenarioAState (.response true (.parsed ⟨none⟩))
        (.networkError "x")).1.logs.all
      fun e => e.message ≠ "bot started for pair ETHUSDT") = true := by
  decide

/-- C6 witness: the amended message and poll trigger on scenario A's
state, plus the rejection message for detail `"invalid symbol"`. -/
theorem C6_witness :
    jsTruthy scenarioAState.config.api_key = true ∧
    jsTruthy scenarioAState.config.secret_key = true ∧
    scenarioAState.config.symbol = .str "ETHUSDT" ∧
    (((startBot "t" scenarioAState (.response true (.parsed ⟨none⟩))
          (.networkError "x")).1.logs =
        addLog "t" ("Бот запущен для пары " ++ "ETHUSDT") "success" scenarioAState.logs ∧
      Event.netCall "/api/bot-status" ∈
        (startBot "t" scenarioAState (.response true (.parsed ⟨none⟩)) (.networkError "x")).2) ∧
     (startBot "t" scenarioAState (.response false (.parsed ⟨some "invalid symbol"⟩))
        (.networkError "x")).1.logs =
      addLog "t" ("Ошибка запуска: " ++ "invalid symbol") "error" scenarioAState.logs) :=
  ⟨by decide, by decide, rfl,
    C6_start_outcome_logs "t" scenarioAState (.networkError "x") "ETHUSDT" "invalid symbol"
      ⟨none⟩ (by decide) (by decide) rfl⟩

/-- C7: at the failing input `{running: true, best_bid: 0}` the display
logic hides the best-bid row (truthiness test on the field), exactly as it
does when the field is absent — the code does not distinguish a zero value
from an absent field, contrary to the claim. -/
theorem C7_zero_bid_hidden :
    rendersBestBid { running := true, message := "", best_bid := some (.val 0) } = false ∧
    rendersBestBid { running := true, message := "" } = false := by
  decide

/-- C8: after any sequence of input-change events from the initial
configuration, the three numeric-typed fields hold numbers and the three
text-typed fields hold strings; the raw value of a numeric field is stored
as `parseFloat` of the input text, with no range clamping. -/
theorem C8_numeric_invariant (es : List (ConfigField × String)) :
    numericInvariant (es.foldl (fun c fv => handleInputChange fv.1 fv.2 c) initialConfig) = true ∧
    ∀ (c : Config) (v : String),
      (handleInputChange .max_price_deviation v c).max_price_deviation = .num (parseFloat v) := by
  constructor
  · have step : ∀ (c : Config) (f : ConfigField) (v : String),
        numericInvariant c = true → numericInvariant (handleInputChange f v c) = true := by
      intro c f v h
      cases f <;>
        simp [handleInputChange, inputType, setField, numericInvariant,
          JSValue.isNum, JSValue.isStr] at h ⊢ <;>
        simp [h]
    have main : ∀ (l : List (ConfigField × String)) (c : Config), numericInvariant c = true →
        numericInvariant (l.foldl (fun c fv => handleInputChange fv.1 fv.2 c) c) = true := by
      intro l
      induction l with
      | nil => intro c h; exact h
      | cons hd tl ih => intro c h; exact ih _ (step c hd.1 hd.2 h)
    exact main es initialConfig (by decide)
  · intro c v
    simp [handleInputChange, inputType, setField]

/-- C9 (amended): a 2xx response whose body parses is treated as success
regardless of the body's content — success log entry, immediate status
poll, and no error-severity log event; a 2xx response with an unparseable
body is not (see the counterexample). -/
theorem C9_parsed_2xx_success (ts : String) (st : PanelState) (poll : NetOutcome BotStatus)
    (body : DetailBody)
    (h1 : jsTruthy st.config.api_key = true) (h2 : jsTruthy st.config.secret_key = true) :
    (startBot ts st (.response true (.parsed body)) poll).1.logs =
      addLog ts ("Бот запущен для пары " ++ jsToString st.config.symbol) "success" st.logs ∧
    Event.netCall "/api/bot-status" ∈ (startBot ts st (.response true (.parsed body)) poll).2 ∧
    ((startBot ts st (.response true (.parsed body)) poll).2.all
      fun e => e.logType != some "error") = true := by
  refine ⟨?_, ?_, ?_⟩
  · simp [startBot, h1, h2]
  · cases poll with
    | networkError m => simp [startBot, h1, h2, fetchBotStatus]
    | response ok pbody => cases pbody <;> simp [startBot, h1, h2, fetchBotStatus]
  · cases poll with
    | networkError m => simp [startBot, h1, h2, fetchBotStatus, Event.logType]
    | response ok pbody =>
      cases pbody <;> simp [startBot, h1, h2, fetchBotStatus, Event.logType]

/-- C9 counterexample: a 200 response with an unparseable body is treated
as a connection error, not success: exactly one log entry, at error
severity, and no status poll or snapshot application occurs. -/
theorem C9_counterexample :
    (startBot "t" scenarioAState (.response true (.parseError "Unexpected token"))
        (.networkError "x")).1.logs.length = 1 ∧
    ((startBot "t" scenarioAState (.response true (.parseError "Unexpected token"))
        (.networkError "x")).1.logs.all fun e => e.type = "error") = true ∧
    Event.netCall "/api/bot-status" ∉
      (startBot "t" scenarioAState (.response true (.parseError "Unexpected token"))
        (.networkError "x")).2 ∧
    Event.snapshotApplied ∉
      (startBot "t" scenarioAState (.response true (.parseError "Unexpected token"))
        (.networkError "x")).2 := by
  decide

/-- C9 witness: the amended success treatment on scenario A's state with a
successfully applied follow-up poll. -/
theorem C9_witness :
    jsTruthy scenarioAState.config.api_key = true ∧
    jsTruthy scenarioAState.config.secret_key = true ∧
    ((startBot "t" scenarioAState (.response true (.parsed ⟨none⟩))
        (.response true (.parsed { running := true, message := "" }))).1.logs =
      addLog "t" ("Бот запущен для пары " ++ jsToString scenarioAState.config.symbol)
        "success" scenarioAState.logs ∧
     Event.netCall "/api/bot-status" ∈
      (startBot "t" scenarioAState (.response true (.parsed ⟨none⟩))
        (.response true (.parsed { running := true, message := "" }))).2 ∧
     ((startBot "t" scenarioAState (.response true (.parsed ⟨none⟩))
        (.response true (.parsed { running := true, message := "" }))).2.all
      fun e => e.logType != some "error") = true) :=
  ⟨by decide, by decide,
    C9_parsed_2xx_success "t" scenarioAState
      (.response true (.parsed { running := true, message := "" })) ⟨none⟩
      (by decide) (by decide)⟩

/-- C10: on the success path of both `startBot` and `stopBot` the event
trace is exactly the in-flight set, the command call, the success log, the
complete follow-up poll, and only then the in-flight release; the final
snapshot is the one the poll applied, so the release happens after the
refresh resolved. -/
theorem C10_release_after_poll (ts : String) (st : PanelState) (poll : NetOutcome BotStatus)
    (body : DetailBody)
    (h1 : jsTruthy st.config.api_key = true) (h2 : jsTruthy st.config.secret_key = true) :
    ((startBot ts st (.response true (.parsed body)) poll).2 =
        [.setLoading true, .netCall "/api/start-bot",
         .logAppend ("Бот запущен для пары " ++ jsToString st.config.symbol) "success"] ++
          (fetchBotStatus poll st.botStatus).2 ++ [.setLoading false] ∧
      (startBot ts st (.response true (.parsed body)) poll).1.botStatus =
        (fetchBotStatus poll st.botStatus).1) ∧
    ((stopBot ts st (.response true (.parsed body)) poll).2 =
        [.setLoading true, .netCall "/api/stop-bot", .logAppend "Бот остановлен" "success"] ++
          (fetchBotStatus poll st.botStatus).2 ++ [.setLoading false] ∧
      (stopBot ts st (.response true (.parsed body)) poll).1.botStatus =
        (fetchBotStatus poll st.botStatus).1) := by
  refine ⟨⟨?_, ?_⟩, ?_, ?_⟩ <;> simp [startBot, stopBot, h1, h2]

/-- C10 witness: the success-path trace on scenario A's state with a poll
that applies a fresh snapshot. -/
theorem C10_witness :
    jsTruthy scenarioAState.config.api_key = true ∧
    jsTruthy scenarioAState.config.secret_key = true ∧
    (((startBot "t" scenarioAState (.response true (.parsed ⟨none⟩))
          (.response true (.parsed { running := true, message := "" }))).2 =
        [.setLoading true, .netCall "/api/start-bot",
         .logAppend ("Бот запущен для пары " ++ jsToString scenarioAState.config.symbol)
           "success"] ++
          (fetchBotStatus (.response true (.parsed { running := true, message := "" }))
            scenarioAState.botStatus).2 ++ [.setLoading false] ∧
      (startBot "t" scenarioAState (.response true (.parsed ⟨none⟩))
          (.response true (.parsed { running := true, message := "" }))).1.botStatus =
        (fetchBotStatus (.response true (.parsed { running := true, message := "" }))
          scenarioAState.botStatus).1) ∧
     ((stopBot "t" scenarioAState (.response true (.parsed ⟨none⟩))
          (.response true (.parsed { running := true, message := "" }))).2 =
        [.setLoading true, .netCall "/api/stop-bot", .logAppend "Бот остановлен" "success"] ++
          (fetchBotStatus (.response true (.parsed { running := true, message := "" }))
            scenarioAState.botStatus).2 ++ [.setLoading false] ∧
      (stopBot "t" scenarioAState (.response true (.parsed ⟨none⟩))
          (.response true (.parsed { running := true, message := "" }))).1.botStatus =
        (fetchBotStatus (.response true (.parsed { running := true, message := "" }))
          scenarioAState.botStatus).1)) :=
  ⟨by decide, by decide,
    C10_release_after_poll "t" scenarioAState
      (.response true (.parsed { running := true, message := "" })) ⟨none⟩
      (by decide) (by decide)⟩
